import Mathlib

/-!
Shallow embedding of the data-normalization and alert-derivation pipeline of
`app_gemelos_3d.py` (fleet-telemetry dashboard): the twin builder
`process_vehicle_data`, the stats fetch `get_all_vehicle_stats_and_filter`
and the paginated maintenance fetch `get_vehicle_maintenance_data`.

Python values are modelled by the inductive `PyVal`; Python floats are
idealized as rationals (binary floating point is not modelled, so `round`
is the exact round-half-to-even on rationals); code that can raise an
uncaught exception is embedded in `Option` (a `Option.none` result means
the Python code raises).
-/

set_option autoImplicit false

namespace Gemelos

/-- A Python (JSON-ish) runtime value. `float` is idealized as a rational.
Dict keys are arbitrary values (as in Python); in the data handled by this
program they are strings. -/
inductive PyVal where
  | null
  | bool (b : Bool)
  | int (n : Int)
  | float (q : ℚ)
  | str (s : String)
  | list (xs : List PyVal)
  | dict (xs : List (PyVal × PyVal))

/-- The numeric value of a scalar, if it is one.  In Python `bool` is a
subclass of `int`, so `True`/`False` count as the numbers 1/0. -/
def PyVal.asNum : PyVal → Option ℚ
  | .bool b => Option.some (if b then 1 else 0)
  | .int n => Option.some (n : ℚ)
  | .float q => Option.some q
  | _ => Option.none

/-- `isinstance(v, (int, float))` — true for `bool`, `int` and `float`
(Python booleans are integers). -/
def PyVal.isNumeric : PyVal → Bool
  | .bool _ => true
  | .int _ => true
  | .float _ => true
  | _ => false

/-- Numeric content of a value known to be numeric (0 otherwise). -/
def PyVal.toRat : PyVal → ℚ
  | .bool b => if b then 1 else 0
  | .int n => (n : ℚ)
  | .float q => q
  | _ => 0

/-- Python truthiness: `None`, `False`, zero, empty string/list/dict are
falsy, everything else truthy. -/
def PyVal.truthy : PyVal → Bool
  | .null => false
  | .bool b => b
  | .int n => n != 0
  | .float q => q != 0
  | .str s => !s.isEmpty
  | .list xs => !xs.isEmpty
  | .dict xs => !xs.isEmpty

/-- Python `==` as used for dict-key lookup and the id comparisons in this
program: numbers compare by value across `bool`/`int`/`float`, strings by
content, `None` only to itself.  Lists and dicts are unhashable in Python
and hence never occur as dict keys; they are compared as unequal here
(the embedded code guards key lookups with `hashable`). -/
def pyEq (a b : PyVal) : Bool :=
  match a.asNum, b.asNum with
  | Option.some x, Option.some y => x == y
  | _, _ =>
    match a, b with
    | .null, .null => true
    | .str s, .str t => s == t
    | _, _ => false

/-- Whether a value may be used as a Python dict key (lists and dicts are
unhashable; using one as a key raises `TypeError`). -/
def hashable : PyVal → Bool
  | .list _ => false
  | .dict _ => false
  | _ => true

/-- First binding of key `k` in an association list, under Python equality. -/
def lookupPy (d : List (PyVal × PyVal)) (k : PyVal) : Option PyVal :=
  match d with
  | [] => Option.none
  | p :: rest => if pyEq p.fst k then Option.some p.snd else lookupPy rest k

/-- `d.get(k, dflt)` on a dict known to be a dict, with a hashable key. -/
def lookupPyD (d : List (PyVal × PyVal)) (k : PyVal) (dflt : PyVal) : PyVal :=
  match lookupPy d k with
  | Option.some v => v
  | Option.none => dflt

/-- View a value as a dict; `Option.none` models the `AttributeError`
raised by calling `.get` on a non-dict. -/
def asDict : PyVal → Option (List (PyVal × PyVal))
  | .dict d => Option.some d
  | _ => Option.none

/-- `m.get(k, dflt) if isinstance(m, dict) else dflt2` pattern of lines
305-308; raises (`Option.none`) when the key is unhashable and `m` is a
dict. -/
def condGet (m : PyVal) (k : PyVal) (dflt dflt2 : PyVal) : Option PyVal :=
  match m with
  | .dict d => if hashable k then Option.some (lookupPyD d k dflt) else Option.none
  | _ => Option.some dflt2

/-- Floor of a rational as an integer (denominators are positive). -/
def ratFloor (q : ℚ) : ℤ := q.num.fdiv q.den

/-- Round-half-to-even to the nearest integer, the rounding Python `round`
uses (idealized over rationals). -/
def roundHalfEven (q : ℚ) : ℤ :=
  let f := ratFloor q
  let r := q - (f : ℚ)
  if r < 1/2 then f
  else if 1/2 < r then f + 1
  else if f % 2 = 0 then f else f + 1

/-- Python `round(x, 2)` on a float, idealized over rationals. -/
def pyRound2 (q : ℚ) : ℚ := (roundHalfEven (q * 100) : ℚ) / 100

/-- Python `round(v, 2)` on a numeric value: an `int` (or `bool`, which
`round` converts to `int`) is returned as an integer, a float is rounded
to two decimals.  Only applied under an `isNumeric` guard. -/
def pyRoundVal2 (v : PyVal) : PyVal :=
  match v with
  | .int n => .int n
  | .bool b => .int (if b then 1 else 0)
  | .float q => .float (pyRound2 q)
  | w => w

/-- Python `str()` of the scalars this program formats (ids and DTC
fields).  Container and float `repr` forms are not modelled faithfully
(they never reach a formatted position in the verified claims). -/
def pyStr : PyVal → String
  | .null => "None"
  | .bool b => if b then "True" else "False"
  | .int n => toString n
  | .float q => toString q
  | .str s => s
  | .list _ => "<list>"
  | .dict _ => "<dict>"

/-- `sep.join(xs)` for strings. -/
def joinSep (sep : String) : List String → String
  | [] => ""
  | [x] => x
  | x :: y :: xs => x ++ sep ++ joinSep sep (y :: xs)

/-- `s.replace(Z, +00:00)` — the pattern is the single character `Z`, so
the replacement is char-by-char. -/
def replaceZChars : List Char → List Char
  | [] => []
  | c :: rest =>
    if c = 'Z' then '+' :: '0' :: '0' :: ':' :: '0' :: '0' :: replaceZChars rest
    else c :: replaceZChars rest

/-- `s.replace('Z', '+00:00')` on strings. -/
def zToUtc (s : String) : String := String.mk (replaceZChars s.data)

/-- Whether `pat` occurs as a contiguous substring of `s`. -/
def listInfixOf (pat s : List Char) : Bool :=
  pat.isPrefixOf s ||
    match s with
    | [] => false
    | _ :: rest => listInfixOf pat rest

/-- String-level substring test. -/
def strContainsSub (s pat : String) : Bool := listInfixOf pat.data s.data

/-- String-level startsWith. -/
def strStartsWithStr (s pat : String) : Bool := pat.data.isPrefixOf s.data

/-! ### The datetime collaborator

`datetime.fromisoformat` / `strftime` are Python stdlib services consumed
by the builder.  Modelled from the spec: parse an ISO-8601 timestamp
`YYYY-MM-DD[*HH[:MM[:SS[.fff[fff]]]][+HH:MM[:SS]]]` (the documented
`fromisoformat` grammar; fractional offset seconds are not modelled) and
reformat to `YYYY-MM-DD HH:MM:SS`.  Parse failure (`ValueError`) is
`Option.none`. -/

/-- A parsed (possibly timezone-aware) Python datetime.  `offMinutes` is
the UTC offset when present; `strftime` formats the naive fields and
ignores it. -/
structure PyDateTime where
  year : Nat
  month : Nat
  day : Nat
  hour : Nat
  minute : Nat
  second : Nat
  microsecond : Nat
  offMinutes : Option Int

def digitVal (c : Char) : Option Nat :=
  if c.isDigit then Option.some (c.toNat - 48) else Option.none

def parse2 : List Char → Option (Nat × List Char)
  | a :: b :: rest => do
    let x ← digitVal a
    let y ← digitVal b
    Option.some (10 * x + y, rest)
  | _ => Option.none

def parse4 : List Char → Option (Nat × List Char)
  | a :: b :: c :: d :: rest => do
    let x ← digitVal a
    let y ← digitVal b
    let z ← digitVal c
    let w ← digitVal d
    Option.some (1000 * x + 100 * y + 10 * z + w, rest)
  | _ => Option.none

def isLeapYear (y : Nat) : Bool := (y % 4 = 0 && y % 100 != 0) || y % 400 = 0

def daysInMonth (y m : Nat) : Nat :=
  if m = 2 then (if isLeapYear y then 29 else 28)
  else if m = 4 || m = 6 || m = 9 || m = 11 then 30
  else 31

/-- Fractional seconds: a dot followed by exactly 3 or 6 digits. -/
def parseFrac : List Char → Option (Nat × List Char)
  | a :: b :: c :: d :: e :: f :: rest => do
    let x1 ← digitVal a
    let x2 ← digitVal b
    let x3 ← digitVal c
    match digitVal d, digitVal e, digitVal f with
    | Option.some x4, Option.some x5, Option.some x6 =>
      Option.some (x1 * 100000 + x2 * 10000 + x3 * 1000 + x4 * 100 + x5 * 10 + x6, rest)
    | _, _, _ => Option.some ((x1 * 100 + x2 * 10 + x3) * 1000, d :: e :: f :: rest)
  | a :: b :: c :: rest => do
    let x1 ← digitVal a
    let x2 ← digitVal b
    let x3 ← digitVal c
    Option.some ((x1 * 100 + x2 * 10 + x3) * 1000, rest)
  | _ => Option.none

/-- UTC offset `±HH:MM[:SS]`; the whole remaining input must be consumed. -/
def parseOffset (s : List Char) : Option Int := do
  match s with
  | sign :: rest =>
    let sgn : Int ← if sign = '+' then Option.some 1
      else if sign = '-' then Option.some (-1) else Option.none
    let (hh, rest) ← parse2 rest
    match rest with
    | ':' :: rest => do
      let (mm, rest) ← parse2 rest
      let rest2 ←
        match rest with
        | ':' :: r => do
          let (ss, r) ← parse2 r
          if ss ≤ 59 then Option.some r else Option.none
        | [] => Option.some ([] : List Char)
        | _ => Option.none
      if rest2 = [] && hh ≤ 23 && mm ≤ 59 then Option.some (sgn * (hh * 60 + mm))
      else Option.none
    | _ => Option.none
  | [] => Option.none

/-- Time-of-day part `HH[:MM[:SS[.frac]]][offset]` after the separator. -/
def parseTimePart (s : List Char) : Option (Nat × Nat × Nat × Nat × Option Int) := do
  let (hh, rest) ← parse2 s
  if hh > 23 then Option.none else
  match rest with
  | [] => Option.some (hh, 0, 0, 0, Option.none)
  | ':' :: r => do
    let (mm, r) ← parse2 r
    if mm > 59 then Option.none else
    match r with
    | [] => Option.some (hh, mm, 0, 0, Option.none)
    | ':' :: r2 => do
      let (ss, r2) ← parse2 r2
      if ss > 59 then Option.none else
      match r2 with
      | [] => Option.some (hh, mm, ss, 0, Option.none)
      | '.' :: r3 => do
        let (us, r3) ← parseFrac r3
        match r3 with
        | [] => Option.some (hh, mm, ss, us, Option.none)
        | r4 => do
          let off ← parseOffset r4
          Option.some (hh, mm, ss, us, Option.some off)
      | r3 => do
        let off ← parseOffset r3
        Option.some (hh, mm, ss, 0, Option.some off)
    | r2 => do
      let off ← parseOffset r2
      Option.some (hh, mm, 0, 0, Option.some off)
  | r => do
    let off ← parseOffset r
    Option.some (hh, 0, 0, 0, Option.some off)

/-- `datetime.fromisoformat` over a character list: `YYYY-MM-DD`, then
optionally any single separator character and a time part. -/
def fromIsoChars (s : List Char) : Option PyDateTime := do
  let (y, rest) ← parse4 s
  match rest with
  | '-' :: rest => do
    let (mo, rest) ← parse2 rest
    match rest with
    | '-' :: rest => do
      let (d, rest) ← parse2 rest
      if 1 ≤ y && y ≤ 9999 && 1 ≤ mo && mo ≤ 12 && 1 ≤ d && d ≤ daysInMonth y mo then
        match rest with
        | [] => Option.some ⟨y, mo, d, 0, 0, 0, 0, Option.none⟩
        | _sep :: tr => do
          let (hh, mm, ss, us, off) ← parseTimePart tr
          Option.some ⟨y, mo, d, hh, mm, ss, us, off⟩
      else Option.none
    | _ => Option.none
  | _ => Option.none

/-- `datetime.fromisoformat` on strings. -/
def pyFromIso (s : String) : Option PyDateTime := fromIsoChars s.data

def pad2 (n : Nat) : String := if n < 10 then "0" ++ toString n else toString n

def pad4 (n : Nat) : String :=
  if n < 10 then "000" ++ toString n
  else if n < 100 then "00" ++ toString n
  else if n < 1000 then "0" ++ toString n
  else toString n

/-- `dt.strftime(f)` with fixed format `%Y-%m-%d %H:%M:%S`: prints the
naive fields zero-padded, ignoring any UTC offset. -/
def strftimeYmdHMS (dt : PyDateTime) : String :=
  pad4 dt.year ++ "-" ++ pad2 dt.month ++ "-" ++ pad2 dt.day ++ " " ++
    pad2 dt.hour ++ ":" ++ pad2 dt.minute ++ ":" ++ pad2 dt.second

/-! ### The Twin Builder and Alert Evaluator (`process_vehicle_data`) -/

def isListVal : PyVal → Bool
  | .list _ => true
  | _ => false

/-- Python `len` of the containers this program measures. -/
def pyLen : PyVal → Nat
  | .list xs => xs.length
  | .dict xs => xs.length
  | .str s => s.length
  | _ => 0

/-- The canonical per-vehicle record built by `process_vehicle_data`
(lines 280-303); every field holds the Python value stored in the
`gemelo_digital` dict. -/
structure DigitalTwin where
  vehicle_id : PyVal
  vehicle_name : PyVal
  make : PyVal
  model : PyVal
  year : PyVal
  license_plate : PyVal
  latitude : PyVal
  longitude : PyVal
  speed_mph : PyVal
  current_address : PyVal
  gps_odometer_meters : PyVal
  location_updated_at : PyVal
  engine_hours : PyVal
  fuel_perc_remaining : PyVal
  engine_oil_pressure_kpa : PyVal
  engine_coolant_temperature_c : PyVal
  engine_rpm : PyVal
  ambient_air_temperature_c : PyVal
  engine_check_light_warning : PyVal
  engine_check_light_emissions : PyVal
  engine_check_light_protect : PyVal
  engine_check_light_stop : PyVal
  diagnostic_trouble_codes : PyVal
  last_data_sync : PyVal
  status_alert : PyVal
  alert_color : PyVal

/-- `location_updated_at` computation, lines 318-325, given the value
stored under `time`. -/
def locTimeField (tv : PyVal) : Option PyVal :=
  if pyEq tv (.str "N/A") then Option.some (PyVal.str "N/A")
  else
    match tv with
    | .str s =>
      match pyFromIso (zToUtc s) with
      | Option.some dt => Option.some (PyVal.str (strftimeYmdHMS dt))
      | Option.none => Option.some (PyVal.str s)
    | _ => Option.none

/-- Location block, lines 309-325: latitude, longitude, speed_mph,
current_address, location_updated_at.  A falsy `loc_data` (missing entry
or empty dict) leaves all five at the sentinel. -/
def buildLocFields (loc_data : PyVal) : Option (PyVal × PyVal × PyVal × PyVal × PyVal) :=
  if loc_data.truthy then
    (asDict loc_data).bind fun ld =>
    (asDict (lookupPyD ld (.str "reverseGeo") (.dict []))).bind fun rg =>
    (locTimeField (lookupPyD ld (.str "time") (.str "N/A"))).bind fun locUpd =>
    let sv := lookupPyD ld (.str "speed") .null
    Option.some (lookupPyD ld (.str "latitude") (.str "N/A"),
      lookupPyD ld (.str "longitude") (.str "N/A"),
      (if sv.isNumeric then pyRoundVal2 sv else PyVal.str "N/A"),
      lookupPyD rg (.str "formattedLocation") (.str "N/A"), locUpd)
  else
    Option.some (PyVal.str "N/A", PyVal.str "N/A", PyVal.str "N/A", PyVal.str "N/A",
      PyVal.str "N/A")

/-- Stats block, lines 328-359: engine_hours, engine_oil_pressure_kpa,
engine_coolant_temperature_c, ambient_air_temperature_c, engine_rpm. -/
def buildStatFields (stats_data : PyVal) :
    Option (PyVal × PyVal × PyVal × PyVal × PyVal) :=
  (asDict stats_data).bind fun sd =>
  let es := lookupPyD sd (.str "obdEngineSeconds") .null
  let op := lookupPyD sd (.str "engineOilPressureKPa") .null
  let tc := lookupPyD sd (.str "engineCoolantTemperatureMilliC") .null
  let ta := lookupPyD sd (.str "ambientAirTemperatureMilliC") .null
  let rv := lookupPyD sd (.str "engineRpm") .null
  Option.some
    ((if es.isNumeric then PyVal.float (pyRound2 (es.toRat / 3600)) else PyVal.str "N/A"),
      (if op.isNumeric then pyRoundVal2 op else PyVal.str "N/A"),
      (if tc.isNumeric then PyVal.float (pyRound2 (tc.toRat / 1000)) else PyVal.str "N/A"),
      (if ta.isNumeric then PyVal.float (pyRound2 (ta.toRat / 1000)) else PyVal.str "N/A"),
      (if rv.isNumeric then rv else PyVal.str "N/A"))

/-- Maintenance block, lines 361-374: the four check-engine lights and the
DTC list, copied verbatim from the `j1939` substructure when present. -/
def buildMaintFields (maintenance_data : PyVal) :
    Option (PyVal × PyVal × PyVal × PyVal × PyVal) :=
  if maintenance_data.truthy then
    (asDict maintenance_data).bind fun md =>
    (asDict (lookupPyD md (.str "j1939") (.dict []))).bind fun j =>
    (asDict (lookupPyD j (.str "checkEngineLight") (.dict []))).bind fun cel =>
    Option.some (lookupPyD cel (.str "warningIsOn") (.bool false),
      lookupPyD cel (.str "emissionsIsOn") (.bool false),
      lookupPyD cel (.str "protectIsOn") (.bool false),
      lookupPyD cel (.str "stopIsOn") (.bool false),
      (match lookupPyD j (.str "diagnosticTroubleCodes") (.list []) with
        | .list xs => PyVal.list xs
        | _ => PyVal.list []))
  else
    Option.some (PyVal.bool false, PyVal.bool false, PyVal.bool false, PyVal.bool false,
      PyVal.list [])

/-- One `"SPN: <spnId> (FMI: <fmiId>)"` entry, lines 380-383. -/
def dtcAlertEntry (code : PyVal) : Option String :=
  (asDict code).bind fun cd =>
  Option.some ("SPN: " ++ pyStr (lookupPyD cd (.str "spnId") (.str "N/A")) ++
    " (FMI: " ++ pyStr (lookupPyD cd (.str "fmiId") (.str "N/A")) ++ ")")

/-- The check-engine labels appended in fixed order, lines 386-394. -/
def checkLightLabels (w e p s : PyVal) : List String :=
  (if w.truthy then ["Advertencia (Warning)"] else []) ++
    (if e.truthy then ["Emisiones (Emissions)"] else []) ++
    (if p.truthy then ["Protección (Protect)"] else []) ++
    (if s.truthy then ["Detener (Stop)"] else [])

/-- The `for code in ...` loop of lines 379-383: builds the info list in
order, failing at the first non-dict element. -/
def mapOptM (f : PyVal → Option String) : List PyVal → Option (List String)
  | [] => Option.some []
  | x :: xs =>
    (f x).bind fun y =>
    (mapOptM f xs).bind fun ys =>
    Option.some (y :: ys)

/-- Lines 378-384: the (singleton or empty) DTC part of the reason list. -/
def dtcAlerts (dtcs : PyVal) : Option (List String) :=
  if dtcs.truthy && isListVal dtcs && pyLen dtcs > 0 then
    match dtcs with
    | .list codes =>
      (mapOptM dtcAlertEntry codes).bind fun infos =>
      Option.some ["Fallas de motor (DTCs: " ++ joinSep "; " infos ++ ")"]
    | _ => Option.some []
  else Option.some []

/-- A DTC entry carrying integer `spnId`/`fmiId`, as delivered by the
maintenance API. -/
def mkDtcCode (p : Int × Int) : PyVal :=
  .dict [(.str "spnId", .int p.1), (.str "fmiId", .int p.2)]

/-- The formatted info string for such an entry. -/
def dtcInfoOf (p : Int × Int) : String :=
  "SPN: " ++ toString p.1 ++ " (FMI: " ++ toString p.2 ++ ")"

/-- `s` contains `p1` and then `p2`, in that order. -/
def containsInOrder (s p1 p2 : String) : Prop :=
  ∃ a b c, s = a ++ p1 ++ b ++ p2 ++ c

/-- Alert Evaluator, lines 376-397: the reason list built from the DTC
sequence and the four lights. -/
def evalAlerts (w e p s dtcs : PyVal) : Option (List String) :=
  (dtcAlerts dtcs).bind fun da =>
  let lights := checkLightLabels w e p s
  Option.some (da ++
    (if lights.isEmpty then []
     else ["Luz de Check Engine ON (" ++ joinSep ", " lights ++ ")"]))

/-- Aggregation, lines 399-404.  The `elif` guard compares the current
status — still the initial `OPERANDO NORMALMENTE`, which no producer ever
sets to the reserved offline marker — so the offline branch is dead and
kept only for behavioral parity. -/
def statusAndColor (alerts : List String) : PyVal × PyVal :=
  if !alerts.isEmpty then
    (PyVal.str ("ALERTA: " ++ joinSep "; " alerts), PyVal.str "red")
  else if ("OPERANDO NORMALMENTE" : String) ≠ "OFFLINE o SIN DATOS" then
    (PyVal.str "OPERANDO NORMALMENTE", PyVal.str "green")
  else
    (PyVal.str "OPERANDO NORMALMENTE", PyVal.str "green")

/-- Assembly of the `gemelo_digital` dict from the identity fields and the
three field groups. -/
def mkTwin (dd : List (PyVal × PyVal))
    (lf sf mf : PyVal × PyVal × PyVal × PyVal × PyVal)
    (alerts : List String) (now : String) : DigitalTwin :=
  { vehicle_id := lookupPyD dd (.str "id") (.str "")
    vehicle_name := lookupPyD dd (.str "name") (.str "N/A")
    make := lookupPyD dd (.str "make") (.str "N/A")
    model := lookupPyD dd (.str "model") (.str "N/A")
    year := lookupPyD dd (.str "year") (.str "N/A")
    license_plate := lookupPyD dd (.str "licensePlate") (.str "N/A")
    latitude := lf.1
    longitude := lf.2.1
    speed_mph := lf.2.2.1
    current_address := lf.2.2.2.1
    gps_odometer_meters := PyVal.str "N/A"
    location_updated_at := lf.2.2.2.2
    engine_hours := sf.1
    fuel_perc_remaining := PyVal.str "N/A"
    engine_oil_pressure_kpa := sf.2.1
    engine_coolant_temperature_c := sf.2.2.1
    ambient_air_temperature_c := sf.2.2.2.1
    engine_rpm := sf.2.2.2.2
    engine_check_light_warning := mf.1
    engine_check_light_emissions := mf.2.1
    engine_check_light_protect := mf.2.2.1
    engine_check_light_stop := mf.2.2.2.1
    diagnostic_trouble_codes := mf.2.2.2.2
    last_data_sync := PyVal.str now
    status_alert := (statusAndColor alerts).1
    alert_color := (statusAndColor alerts).2 }

/-- `process_vehicle_data`, also exposing the internal reason list.
`now` stands for `datetime.now().isoformat()`. -/
def buildCore (vehicle_details vehicle_locations vehicle_stats
    vehicle_maintenance_data : PyVal) (now : String) :
    Option (DigitalTwin × List String) :=
  (asDict vehicle_details).bind fun dd =>
  let vid := lookupPyD dd (.str "id") (.str "")
  (condGet vehicle_stats vid (.dict []) (.dict [])).bind fun stats_data =>
  (condGet vehicle_maintenance_data vid (.dict []) (.dict [])).bind fun maintenance_data =>
  (condGet vehicle_locations vid .null (.dict [])).bind fun loc_data =>
  (buildLocFields loc_data).bind fun lf =>
  (buildStatFields stats_data).bind fun sf =>
  (buildMaintFields maintenance_data).bind fun mf =>
  (evalAlerts mf.1 mf.2.1 mf.2.2.1 mf.2.2.2.1 mf.2.2.2.2).bind fun alerts =>
  Option.some (mkTwin dd lf sf mf alerts now, alerts)

/-- `process_vehicle_data(vehicle_details, vehicle_locations,
vehicle_stats, vehicle_maintenance_data)`; `Option.none` models an
uncaught exception. -/
def process_vehicle_data (vehicle_details vehicle_locations vehicle_stats
    vehicle_maintenance_data : PyVal) (now : String) : Option DigitalTwin :=
  (buildCore vehicle_details vehicle_locations vehicle_stats
    vehicle_maintenance_data now).map Prod.fst

/-! ### The Telemetry Fetcher -/

/-- Outcome of one HTTP GET against the stats endpoint:
`err` is any `requests.exceptions.RequestException` (timeout, network
error, non-2xx status), `ok` carries the response `data` list,
a list of per-vehicle JSON objects. -/
inductive StatsNet where
  | err
  | ok (data : List (List (PyVal × PyVal)))

/-- Value stored for one stat type, lines 203-207: unwrap an
`{value: ...}` envelope, otherwise take the raw value. -/
def unwrapStat (v : PyVal) : PyVal :=
  match v with
  | .dict d =>
    match lookupPy d (.str "value") with
    | Option.some inner => inner
    | Option.none => v
  | _ => v

/-- Lines 201-208: collect the requested stat types present on a matched
item, in request order. -/
def extractStats (stat_types : List String) (item : List (PyVal × PyVal)) : PyVal :=
  .dict (stat_types.foldl (fun acc st =>
    match lookupPy item (.str st) with
    | Option.some v => acc ++ [(PyVal.str st, unwrapStat v)]
    | Option.none => acc) [])

/-- `get_all_vehicle_stats_and_filter(target_vehicle_id, stat_types)`,
lines 185-222.  The network outcome is a parameter: a batch outside
[1,4] stat types is rejected on line 186-188 before any request, so the
result then cannot depend on `net`.  `Option.none` is Python `None`
(precondition violation, transport failure, or vehicle not in the
response). -/
def get_all_vehicle_stats_and_filter (target_vehicle_id : PyVal)
    (stat_types : List String) (net : StatsNet) : Option PyVal :=
  if stat_types.isEmpty || stat_types.length > 4 then Option.none
  else
    match net with
    | .err => Option.none
    | .ok data =>
      match data.find? (fun item => pyEq (lookupPyD item (.str "id") .null)
          target_vehicle_id) with
      | Option.some item => Option.some (extractStats stat_types item)
      | Option.none => Option.none

/-- Outcome of one maintenance-list page request, lines 237-248:
`err` is a timeout or request exception; `ok` carries
the `vehicleMaintenance` list, the fallback `vehicles` list, and the
`endCursor` value from `pagination`. -/
inductive MaintPage where
  | err
  | ok (vehicleMaintenance : List PyVal) (vehicles : List PyVal) (endCursor : PyVal)

/-- Pagination loop of lines 230-264 over the stream of page responses
the server would deliver (head = first request).  Returns the
accumulated item list, or `Option.none` on a transport failure (an
exhausted stream is modelled as an unresponsive server, likewise a
failure). -/
def paginateMaint : List MaintPage → List PyVal → Option (List PyVal)
  | [], _ => Option.none
  | .err :: _, _ => Option.none
  | .ok vm vehicles cursor :: rest, acc =>
    let items := if vm.isEmpty then vehicles else vm
    let acc := acc ++ items
    if cursor.truthy then paginateMaint rest acc else Option.some acc

/-- Client-side filter of lines 266-270: first accumulated item whose
stringified `id` equals the stringified target.  The outer `Option.none`
models the uncaught `AttributeError` on a non-dict item; the inner
`Option` is the Python return value. -/
def findMaintById : List PyVal → PyVal → Option (Option PyVal)
  | [], _ => Option.some Option.none
  | item :: rest, t =>
    match item with
    | .dict d =>
      if pyStr (lookupPyD d (.str "id") .null) == pyStr t then
        Option.some (Option.some item)
      else findMaintById rest t
    | _ => Option.none

/-- `get_vehicle_maintenance_data(target_vehicle_id)`, lines 224-275;
the inner `Option` is the Python return value (`Option.none` both for a
transport failure and for a vehicle absent after full pagination). -/
def get_vehicle_maintenance_data (target_vehicle_id : PyVal)
    (pages : List MaintPage) : Option (Option PyVal) :=
  match paginateMaint pages [] with
  | Option.none => Option.some Option.none
  | Option.some items => findMaintById items target_vehicle_id

/-- The safety invariant of the numeric fields: a number or the explicit
"N/A" sentinel. -/
def numericOrNA (v : PyVal) : Prop := v.isNumeric = true ∨ v = PyVal.str "N/A"

/-- All fields of a twin except the five location-derived ones. -/
def nonLocProj (t : DigitalTwin) :
    PyVal × PyVal × PyVal × PyVal × PyVal × PyVal × PyVal × PyVal × PyVal × PyVal ×
      PyVal × PyVal × PyVal × PyVal × PyVal × PyVal × PyVal × PyVal × PyVal × PyVal × PyVal :=
  (t.vehicle_id, t.vehicle_name, t.make, t.model, t.year, t.license_plate,
    t.gps_odometer_meters, t.engine_hours, t.fuel_perc_remaining,
    t.engine_oil_pressure_kpa, t.engine_coolant_temperature_c, t.ambient_air_temperature_c,
    t.engine_rpm, t.engine_check_light_warning, t.engine_check_light_emissions,
    t.engine_check_light_protect, t.engine_check_light_stop, t.diagnostic_trouble_codes,
    t.last_data_sync, t.status_alert, t.alert_color)

/-! ### Computation lemmas -/

@[simp] theorem lookupPy_nil (k : PyVal) : lookupPy [] k = Option.none := rfl

@[simp] theorem lookupPy_cons (p : PyVal × PyVal) (rest : List (PyVal × PyVal))
    (k : PyVal) :
    lookupPy (p :: rest) k =
      if pyEq p.fst k then Option.some p.snd else lookupPy rest k := rfl

@[simp] theorem pyEq_str_str (a b : String) : pyEq (.str a) (.str b) = (a == b) := rfl

@[simp] theorem asDict_dict (d : List (PyVal × PyVal)) :
    asDict (.dict d) = Option.some d := rfl

@[simp] theorem hashable_str (s : String) : hashable (.str s) = true := rfl

@[simp] theorem truthy_dict (d : List (PyVal × PyVal)) :
    PyVal.truthy (.dict d) = !d.isEmpty := rfl

@[simp] theorem truthy_null : PyVal.truthy .null = false := rfl

@[simp] theorem truthy_bool (b : Bool) : PyVal.truthy (.bool b) = b := rfl

@[simp] theorem truthy_list (xs : List PyVal) :
    PyVal.truthy (.list xs) = !xs.isEmpty := rfl

@[simp] theorem condGet_dict (d : List (PyVal × PyVal)) (k dflt dflt2 : PyVal)
    (h : hashable k = true) :
    condGet (.dict d) k dflt dflt2 = Option.some (lookupPyD d k dflt) := by
  simp [condGet, h]

@[simp] theorem isNumeric_float (q : ℚ) : PyVal.isNumeric (.float q) = true := rfl

@[simp] theorem isNumeric_int (n : Int) : PyVal.isNumeric (.int n) = true := rfl

@[simp] theorem isNumeric_bool (b : Bool) : PyVal.isNumeric (.bool b) = true := rfl

@[simp] theorem isNumeric_str (s : String) : PyVal.isNumeric (.str s) = false := rfl

@[simp] theorem isNumeric_null : PyVal.isNumeric .null = false := rfl

@[simp] theorem toRat_float (q : ℚ) : PyVal.toRat (.float q) = q := rfl

/-- Runs the `buildCore` monadic chain once, given the value of each
fallible step. -/
theorem buildCore_run
    (dd : List (PyVal × PyVal)) (L S M : PyVal) (now : String)
    (stats_data maintenance_data loc_data : PyVal)
    (lf sf mf : PyVal × PyVal × PyVal × PyVal × PyVal) (alerts : List String)
    (hS : condGet S (lookupPyD dd (.str "id") (.str "")) (.dict []) (.dict [])
      = Option.some stats_data)
    (hM : condGet M (lookupPyD dd (.str "id") (.str "")) (.dict []) (.dict [])
      = Option.some maintenance_data)
    (hL : condGet L (lookupPyD dd (.str "id") (.str "")) .null (.dict [])
      = Option.some loc_data)
    (hlf : buildLocFields loc_data = Option.some lf)
    (hsf : buildStatFields stats_data = Option.some sf)
    (hmf : buildMaintFields maintenance_data = Option.some mf)
    (ha : evalAlerts mf.1 mf.2.1 mf.2.2.1 mf.2.2.2.1 mf.2.2.2.2 = Option.some alerts) :
    buildCore (.dict dd) L S M now = Option.some (mkTwin dd lf sf mf alerts now, alerts) := by
  simp [buildCore, hS, hM, hL, hlf, hsf, hmf, ha]

/-! ### Claims -/

/-- C1: for stat maps holding numeric (float) values for the vehicle id,
the Twin Builder derives the engine fields by the stated rules:
engine_hours = round(obdEngineSeconds/3600, 2),
engine_coolant_temperature_c = round(engineCoolantTemperatureMilliC/1000, 2),
ambient_air_temperature_c = round(ambientAirTemperatureMilliC/1000, 2),
engine_oil_pressure_kpa = round(value, 2) with no unit conversion, and
engine_rpm = the raw numeric value, unrounded. -/
theorem C1_engine_stat_derivation
    (dd : List (PyVal × PyVal)) (vid : String)
    (hid : lookupPyD dd (.str "id") (.str "") = PyVal.str vid)
    (es op ct ta rv : ℚ) (now : String) :
    ∃ t, process_vehicle_data (.dict dd) (.dict [])
        (.dict [(.str vid, .dict [
          (.str "obdEngineSeconds", .float es),
          (.str "engineOilPressureKPa", .float op),
          (.str "engineCoolantTemperatureMilliC", .float ct),
          (.str "ambientAirTemperatureMilliC", .float ta),
          (.str "engineRpm", .float rv)])])
        (.dict []) now = Option.some t
      ∧ t.engine_hours = .float (pyRound2 (es / 3600))
      ∧ t.engine_coolant_temperature_c = .float (pyRound2 (ct / 1000))
      ∧ t.ambient_air_temperature_c = .float (pyRound2 (ta / 1000))
      ∧ t.engine_oil_pressure_kpa = .float (pyRound2 op)
      ∧ t.engine_rpm = .float rv := by
  have h := buildCore_run dd (.dict []) (.dict [(.str vid, .dict [
          (.str "obdEngineSeconds", .float es),
          (.str "engineOilPressureKPa", .float op),
          (.str "engineCoolantTemperatureMilliC", .float ct),
          (.str "ambientAirTemperatureMilliC", .float ta),
          (.str "engineRpm", .float rv)])]) (.dict []) now
      (.dict [
          (.str "obdEngineSeconds", .float es),
          (.str "engineOilPressureKPa", .float op),
          (.str "engineCoolantTemperatureMilliC", .float ct),
          (.str "ambientAirTemperatureMilliC", .float ta),
          (.str "engineRpm", .float rv)])
      (.dict []) .null
      (PyVal.str "N/A", PyVal.str "N/A", PyVal.str "N/A", PyVal.str "N/A", PyVal.str "N/A")
      (.float (pyRound2 (es / 3600)), .float (pyRound2 op),
        .float (pyRound2 (ct / 1000)), .float (pyRound2 (ta / 1000)), .float rv)
      (PyVal.bool false, PyVal.bool false, PyVal.bool false, PyVal.bool false, PyVal.list [])
      []
      (by rw [hid]; simp [condGet, lookupPyD])
      (by rw [hid]; simp [condGet, lookupPyD])
      (by rw [hid]; simp [condGet, lookupPyD])
      rfl
      (by simp [buildStatFields, lookupPyD, pyRoundVal2, PyVal.toRat])
      rfl rfl
  exact ⟨_, congrArg (Option.map Prod.fst) h, rfl, rfl, rfl, rfl, rfl⟩

theorem C1_engine_stat_derivation_witness :
    lookupPyD [(.str "id", .str "V1")] (.str "id") (.str "") = PyVal.str "V1"
    ∧ (∃ t, process_vehicle_data (.dict [(.str "id", .str "V1")]) (.dict [])
        (.dict [(.str "V1", .dict [
          (.str "obdEngineSeconds", .float 7200),
          (.str "engineOilPressureKPa", .float 250),
          (.str "engineCoolantTemperatureMilliC", .float 90555),
          (.str "ambientAirTemperatureMilliC", .float 25499),
          (.str "engineRpm", .float 800)])])
        (.dict []) "T" = Option.some t
      ∧ t.engine_hours = .float (pyRound2 (7200 / 3600))
      ∧ t.engine_coolant_temperature_c = .float (pyRound2 (90555 / 1000))
      ∧ t.ambient_air_temperature_c = .float (pyRound2 (25499 / 1000))
      ∧ t.engine_oil_pressure_kpa = .float (pyRound2 250)
      ∧ t.engine_rpm = .float 800) :=
  ⟨rfl, C1_engine_stat_derivation [(.str "id", .str "V1")] "V1" rfl 7200 250 90555 25499 800 "T"⟩

/-! Helpers for the alert-status claims. -/

theorem buildCore_status (d L S M : PyVal) (now : String) (t : DigitalTwin)
    (alerts : List String) (h : buildCore d L S M now = Option.some (t, alerts)) :
    t.status_alert = (statusAndColor alerts).1 ∧ t.alert_color = (statusAndColor alerts).2 := by
  simp only [buildCore, Option.bind_eq_some, Option.some.injEq, Prod.mk.injEq] at h
  obtain ⟨dd, hdd, sd, hsd, md, hmd, ld, hld, lf, hlf, sf, hsf, mf, hmf, al, hal, ht, hal2⟩ := h
  subst hal2
  rw [← ht]
  exact ⟨rfl, rfl⟩

theorem strStartsWithStr_append (p s : String) : strStartsWithStr (p ++ s) p = true := by
  have hd : (p ++ s).data = p.data ++ s.data := rfl
  simp [strStartsWithStr, hd, List.isPrefixOf_iff_prefix]

theorem alerta_ne_offline (j : String) :
    ("ALERTA: " ++ j : String) ≠ "OFFLINE o SIN DATOS" := by
  intro hcontra
  have h2 : ("ALERTA: " ++ j).data.head? = ("OFFLINE o SIN DATOS" : String).data.head? := by
    rw [hcontra]
  have h3 : ("ALERTA: " ++ j).data.head? = Option.some 'A' := rfl
  have h4 : ("OFFLINE o SIN DATOS" : String).data.head? = Option.some 'O' := rfl
  rw [h3, h4] at h2
  simp at h2

/-- C2: for every successful build, alert_color is red iff status_alert
begins with the marker "ALERTA: " and the reason list is non-empty;
otherwise status_alert is "OPERANDO NORMALMENTE" and alert_color is
"green", and the reserved offline status is never produced. -/
theorem C2_alert_color_invariant (d L S M : PyVal) (now : String) (t : DigitalTwin)
    (alerts : List String) (h : buildCore d L S M now = Option.some (t, alerts)) :
    (t.alert_color = PyVal.str "red" ↔
      ((∃ s, t.status_alert = PyVal.str s ∧ strStartsWithStr s "ALERTA: " = true)
        ∧ alerts ≠ []))
    ∧ (t.alert_color ≠ PyVal.str "red" →
        t.status_alert = PyVal.str "OPERANDO NORMALMENTE"
          ∧ t.alert_color = PyVal.str "green")
    ∧ t.status_alert ≠ PyVal.str "OFFLINE o SIN DATOS" := by
  obtain ⟨hs, hc⟩ := buildCore_status d L S M now t alerts h
  cases alerts with
  | nil =>
    rw [hs, hc]
    refine ⟨?_, fun _ => ⟨rfl, rfl⟩, by simp [statusAndColor]⟩
    simp only [statusAndColor]
    constructor
    · intro hred
      simp at hred
    · rintro ⟨_, hne⟩
      exact absurd rfl hne
  | cons a as =>
    rw [hs, hc]
    refine ⟨?_, ?_, ?_⟩
    · simp only [statusAndColor]
      constructor
      · intro _
        exact ⟨⟨"ALERTA: " ++ joinSep "; " (a :: as), by simp,
          strStartsWithStr_append "ALERTA: " (joinSep "; " (a :: as))⟩, by simp⟩
      · intro _
        simp
    · intro hne
      exact absurd (by simp [statusAndColor]) hne
    · simp only [statusAndColor]
      simp only [List.isEmpty_cons, Bool.not_false, if_true]
      intro hcontra
      rw [PyVal.str.injEq] at hcontra
      exact alerta_ne_offline (joinSep "; " (a :: as)) hcontra

theorem C2_alert_color_invariant_witness :
    buildCore (.dict [(.str "id", .str "V1")]) (.dict []) (.dict []) (.dict []) "T"
      = Option.some (mkTwin [(.str "id", .str "V1")]
          (PyVal.str "N/A", PyVal.str "N/A", PyVal.str "N/A", PyVal.str "N/A", PyVal.str "N/A")
          (PyVal.str "N/A", PyVal.str "N/A", PyVal.str "N/A", PyVal.str "N/A", PyVal.str "N/A")
          (PyVal.bool false, PyVal.bool false, PyVal.bool false, PyVal.bool false, PyVal.list [])
          [] "T", [])
    ∧ ((mkTwin [(.str "id", .str "V1")]
          (PyVal.str "N/A", PyVal.str "N/A", PyVal.str "N/A", PyVal.str "N/A", PyVal.str "N/A")
          (PyVal.str "N/A", PyVal.str "N/A", PyVal.str "N/A", PyVal.str "N/A", PyVal.str "N/A")
          (PyVal.bool false, PyVal.bool false, PyVal.bool false, PyVal.bool false, PyVal.list [])
          [] "T").status_alert = PyVal.str "OPERANDO NORMALMENTE") := by
  have hb : buildCore (.dict [(.str "id", .str "V1")]) (.dict []) (.dict []) (.dict []) "T"
      = Option.some (mkTwin [(.str "id", .str "V1")]
          (PyVal.str "N/A", PyVal.str "N/A", PyVal.str "N/A", PyVal.str "N/A", PyVal.str "N/A")
          (PyVal.str "N/A", PyVal.str "N/A", PyVal.str "N/A", PyVal.str "N/A", PyVal.str "N/A")
          (PyVal.bool false, PyVal.bool false, PyVal.bool false, PyVal.bool false, PyVal.list [])
          [] "T", []) := rfl
  have h := C2_alert_color_invariant (.dict [(.str "id", .str "V1")]) (.dict []) (.dict [])
    (.dict []) "T" _ [] hb
  exact ⟨hb, (h.2.1 (by simp [mkTwin, statusAndColor])).1⟩

theorem mapOptM_dtc (pairs : List (Int × Int)) :
    mapOptM dtcAlertEntry (pairs.map mkDtcCode) = Option.some (pairs.map dtcInfoOf) := by
  induction pairs with
  | nil => rfl
  | cons q qs ih => simp [mapOptM, dtcAlertEntry, mkDtcCode, dtcInfoOf, lookupPyD, pyStr, ih]

/-- C3: a non-empty DTC sequence yields exactly one combined DTC reason
listing every code as "SPN: <spnId> (FMI: <fmiId>)", semicolon-joined in
sequence order, with alert_color red; in particular codes
[(100,3),(200,1)] produce an alert string containing "SPN: 100 (FMI: 3)"
and then "SPN: 200 (FMI: 1)". -/
theorem C3_dtc_combined_reason (rest : List (PyVal × PyVal)) (vid : String)
    (q0 : Int × Int) (qs : List (Int × Int)) (now : String) :
    (∃ t alerts, buildCore (.dict ((.str "id", .str vid) :: rest)) (.dict []) (.dict [])
        (.dict [(.str vid, .dict [(.str "j1939", .dict [
          (.str "checkEngineLight", .dict []),
          (.str "diagnosticTroubleCodes", .list ((q0 :: qs).map mkDtcCode))])])]) now
        = Option.some (t, alerts)
      ∧ alerts = ["Fallas de motor (DTCs: " ++ joinSep "; " ((q0 :: qs).map dtcInfoOf) ++ ")"]
      ∧ t.status_alert = .str ("ALERTA: " ++
          ("Fallas de motor (DTCs: " ++ joinSep "; " ((q0 :: qs).map dtcInfoOf) ++ ")"))
      ∧ t.alert_color = .str "red"
      ∧ t.diagnostic_trouble_codes = .list ((q0 :: qs).map mkDtcCode))
    ∧ (∃ u, process_vehicle_data (.dict [(.str "id", .str "V1")]) (.dict []) (.dict [])
        (.dict [(.str "V1", .dict [(.str "j1939", .dict [
          (.str "checkEngineLight", .dict []),
          (.str "diagnosticTroubleCodes", .list [mkDtcCode (100, 3), mkDtcCode (200, 1)])])])])
        "T" = Option.some u
      ∧ (∃ s, u.status_alert = PyVal.str s
          ∧ containsInOrder s "SPN: 100 (FMI: 3)" "SPN: 200 (FMI: 1)")
      ∧ u.alert_color = PyVal.str "red") := by
  constructor
  · have hmf : buildMaintFields (.dict [(.str "j1939", .dict [
        (.str "checkEngineLight", .dict []),
        (.str "diagnosticTroubleCodes", .list ((q0 :: qs).map mkDtcCode))])])
        = Option.some (PyVal.bool false, PyVal.bool false, PyVal.bool false, PyVal.bool false,
          PyVal.list ((q0 :: qs).map mkDtcCode)) := by
      simp [buildMaintFields, lookupPyD]
    have ha : evalAlerts (.bool false) (.bool false) (.bool false) (.bool false)
        (PyVal.list ((q0 :: qs).map mkDtcCode))
        = Option.some ["Fallas de motor (DTCs: " ++ joinSep "; " ((q0 :: qs).map dtcInfoOf) ++ ")"] := by
      have hm := mapOptM_dtc (q0 :: qs)
      simp only [List.map_cons] at hm
      simp [evalAlerts, dtcAlerts, isListVal, pyLen, hm, checkLightLabels]
    have h := buildCore_run ((.str "id", .str vid) :: rest) (.dict [])
        (.dict []) (.dict [(.str vid, .dict [(.str "j1939", .dict [
          (.str "checkEngineLight", .dict []),
          (.str "diagnosticTroubleCodes", .list ((q0 :: qs).map mkDtcCode))])])]) now
        (.dict []) (.dict [(.str "j1939", .dict [
          (.str "checkEngineLight", .dict []),
          (.str "diagnosticTroubleCodes", .list ((q0 :: qs).map mkDtcCode))])]) .null
        (PyVal.str "N/A", PyVal.str "N/A", PyVal.str "N/A", PyVal.str "N/A", PyVal.str "N/A")
        (PyVal.str "N/A", PyVal.str "N/A", PyVal.str "N/A", PyVal.str "N/A", PyVal.str "N/A")
        (PyVal.bool false, PyVal.bool false, PyVal.bool false, PyVal.bool false,
          PyVal.list ((q0 :: qs).map mkDtcCode))
        ["Fallas de motor (DTCs: " ++ joinSep "; " ((q0 :: qs).map dtcInfoOf) ++ ")"]
        (by simp [condGet, lookupPyD]) (by simp [condGet, lookupPyD])
        (by simp [condGet, lookupPyD]) rfl rfl hmf ha
    exact ⟨_, _, h, rfl, by simp [mkTwin, statusAndColor, joinSep], rfl, rfl⟩
  · refine ⟨_, rfl, ⟨"ALERTA: Fallas de motor (DTCs: SPN: 100 (FMI: 3); SPN: 200 (FMI: 1))",
      rfl, "ALERTA: Fallas de motor (DTCs: ", "; ", ")", ?_⟩, rfl⟩
    rfl

/-- C4 counterexample: with only `warningIsOn` true the combined reason is
"Luz de Check Engine ON (Advertencia (Warning))", not the claimed
"Luz de Check Engine ON (Advertencia)": the appended label is
"Advertencia (Warning)", not the bare "Advertencia". -/
theorem C4_counterexample :
    (process_vehicle_data (.dict [(.str "id", .str "V1")]) (.dict []) (.dict [])
      (.dict [(.str "V1", .dict [(.str "j1939", .dict [(.str "checkEngineLight",
        .dict [(.str "warningIsOn", .bool true)])])])]) "T").map DigitalTwin.status_alert
      = Option.some (PyVal.str "ALERTA: Luz de Check Engine ON (Advertencia (Warning))")
    ∧ PyVal.str "ALERTA: Luz de Check Engine ON (Advertencia (Warning))"
      ≠ PyVal.str "ALERTA: Luz de Check Engine ON (Advertencia)" := by
  refine ⟨rfl, fun hcontra => ?_⟩
  rw [PyVal.str.injEq] at hcontra
  exact absurd hcontra (by decide)

/-- C4 (amended): for each of the four check-engine booleans that is true
the evaluator appends its label — "Advertencia (Warning)",
"Emisiones (Emissions)", "Protección (Protect)", "Detener (Stop)" — in
that fixed order, and if any is true it emits one combined reason
"Luz de Check Engine ON (<comma-joined labels>)" and alert_color is red;
with warningIsOn and stopIsOn only, the combined reason contains
"Advertencia" and then "Detener" and neither "Emisiones" nor
"Protección". -/
theorem C4_check_light_labels (rest : List (PyVal × PyVal)) (vid : String)
    (w e p s : Bool) (now : String) :
    (∃ t alerts, buildCore (.dict ((.str "id", .str vid) :: rest)) (.dict []) (.dict [])
        (.dict [(.str vid, .dict [(.str "j1939", .dict [(.str "checkEngineLight", .dict [
          (.str "warningIsOn", .bool w), (.str "emissionsIsOn", .bool e),
          (.str "protectIsOn", .bool p), (.str "stopIsOn", .bool s)])])])]) now
        = Option.some (t, alerts)
      ∧ checkLightLabels (.bool w) (.bool e) (.bool p) (.bool s)
          = (if w then ["Advertencia (Warning)"] else []) ++
            (if e then ["Emisiones (Emissions)"] else []) ++
            (if p then ["Protección (Protect)"] else []) ++
            (if s then ["Detener (Stop)"] else [])
      ∧ alerts = (if (checkLightLabels (.bool w) (.bool e) (.bool p) (.bool s)).isEmpty
          then []
          else ["Luz de Check Engine ON (" ++
            joinSep ", " (checkLightLabels (.bool w) (.bool e) (.bool p) (.bool s)) ++ ")"])
      ∧ t.alert_color = (if (checkLightLabels (.bool w) (.bool e) (.bool p) (.bool s)).isEmpty
          then PyVal.str "green" else PyVal.str "red"))
    ∧ (∃ u, process_vehicle_data (.dict [(.str "id", .str "V1")]) (.dict []) (.dict [])
        (.dict [(.str "V1", .dict [(.str "j1939", .dict [(.str "checkEngineLight", .dict [
          (.str "warningIsOn", .bool true), (.str "emissionsIsOn", .bool false),
          (.str "protectIsOn", .bool false), (.str "stopIsOn", .bool true)])])])]) "T"
        = Option.some u
      ∧ u.status_alert
          = PyVal.str "ALERTA: Luz de Check Engine ON (Advertencia (Warning), Detener (Stop))"
      ∧ (∃ so, u.status_alert = PyVal.str so
          ∧ containsInOrder so "Advertencia" "Detener"
          ∧ strContainsSub so "Emisiones" = false
          ∧ strContainsSub so "Protección" = false)) := by
  constructor
  · have hmf : buildMaintFields (.dict [(.str "j1939", .dict [(.str "checkEngineLight", .dict [
        (.str "warningIsOn", .bool w), (.str "emissionsIsOn", .bool e),
        (.str "protectIsOn", .bool p), (.str "stopIsOn", .bool s)])])])
        = Option.some (PyVal.bool w, PyVal.bool e, PyVal.bool p, PyVal.bool s, PyVal.list []) := by
      simp [buildMaintFields, lookupPyD]
    have ha : evalAlerts (.bool w) (.bool e) (.bool p) (.bool s) (PyVal.list [])
        = Option.some (if (checkLightLabels (.bool w) (.bool e) (.bool p) (.bool s)).isEmpty
            then []
            else ["Luz de Check Engine ON (" ++
              joinSep ", " (checkLightLabels (.bool w) (.bool e) (.bool p) (.bool s)) ++ ")"]) := by
      simp [evalAlerts, dtcAlerts]
    have h := buildCore_run ((.str "id", .str vid) :: rest) (.dict [])
        (.dict []) (.dict [(.str vid, .dict [(.str "j1939", .dict [(.str "checkEngineLight",
          .dict [(.str "warningIsOn", .bool w), (.str "emissionsIsOn", .bool e),
            (.str "protectIsOn", .bool p), (.str "stopIsOn", .bool s)])])])]) now
        (.dict []) (.dict [(.str "j1939", .dict [(.str "checkEngineLight", .dict [
          (.str "warningIsOn", .bool w), (.str "emissionsIsOn", .bool e),
          (.str "protectIsOn", .bool p), (.str "stopIsOn", .bool s)])])]) .null
        (PyVal.str "N/A", PyVal.str "N/A", PyVal.str "N/A", PyVal.str "N/A", PyVal.str "N/A")
        (PyVal.str "N/A", PyVal.str "N/A", PyVal.str "N/A", PyVal.str "N/A", PyVal.str "N/A")
        (PyVal.bool w, PyVal.bool e, PyVal.bool p, PyVal.bool s, PyVal.list [])
        (if (checkLightLabels (.bool w) (.bool e) (.bool p) (.bool s)).isEmpty
          then []
          else ["Luz de Check Engine ON (" ++
            joinSep ", " (checkLightLabels (.bool w) (.bool e) (.bool p) (.bool s)) ++ ")"])
        (by simp [condGet, lookupPyD]) (by simp [condGet, lookupPyD])
        (by simp [condGet, lookupPyD]) rfl rfl hmf ha
    refine ⟨_, _, h, by simp [checkLightLabels], rfl, ?_⟩
    cases hempty : (checkLightLabels (.bool w) (.bool e) (.bool p) (.bool s)).isEmpty <;>
      simp [mkTwin, statusAndColor, hempty]
  · refine ⟨_, rfl,
      rfl, ⟨"ALERTA: Luz de Check Engine ON (Advertencia (Warning), Detener (Stop))",
      rfl, ⟨"ALERTA: Luz de Check Engine ON (", " (Warning), ", " (Stop))", rfl⟩, rfl, rfl⟩⟩

theorem pyRoundVal2_numeric (v : PyVal) (h : v.isNumeric = true) :
    (pyRoundVal2 v).isNumeric = true := by
  cases v <;> simp_all [pyRoundVal2]

/-- C5: arbitrary stat dicts never make the builder raise; each of the
five engine fields is the "N/A" sentinel whenever its stat is missing or
non-numeric (and follows the numeric rule otherwise), and every numeric
field of the record is a number or that explicit sentinel. -/
theorem C5_sentinel_no_exception (rest : List (PyVal × PyVal)) (vid : String)
    (sd : List (PyVal × PyVal)) (now : String) :
    ∃ t, process_vehicle_data (.dict ((.str "id", .str vid) :: rest)) (.dict [])
        (.dict [(.str vid, .dict sd)]) (.dict []) now = Option.some t
      ∧ t.engine_hours = (if (lookupPyD sd (.str "obdEngineSeconds") .null).isNumeric
          then PyVal.float (pyRound2 ((lookupPyD sd (.str "obdEngineSeconds") .null).toRat / 3600))
          else PyVal.str "N/A")
      ∧ t.engine_oil_pressure_kpa
          = (if (lookupPyD sd (.str "engineOilPressureKPa") .null).isNumeric
            then pyRoundVal2 (lookupPyD sd (.str "engineOilPressureKPa") .null)
            else PyVal.str "N/A")
      ∧ t.engine_coolant_temperature_c
          = (if (lookupPyD sd (.str "engineCoolantTemperatureMilliC") .null).isNumeric
            then PyVal.float
              (pyRound2 ((lookupPyD sd (.str "engineCoolantTemperatureMilliC") .null).toRat / 1000))
            else PyVal.str "N/A")
      ∧ t.ambient_air_temperature_c
          = (if (lookupPyD sd (.str "ambientAirTemperatureMilliC") .null).isNumeric
            then PyVal.float
              (pyRound2 ((lookupPyD sd (.str "ambientAirTemperatureMilliC") .null).toRat / 1000))
            else PyVal.str "N/A")
      ∧ t.engine_rpm = (if (lookupPyD sd (.str "engineRpm") .null).isNumeric
          then lookupPyD sd (.str "engineRpm") .null else PyVal.str "N/A")
      ∧ numericOrNA t.engine_hours
      ∧ numericOrNA t.engine_oil_pressure_kpa
      ∧ numericOrNA t.engine_coolant_temperature_c
      ∧ numericOrNA t.ambient_air_temperature_c
      ∧ numericOrNA t.engine_rpm
      ∧ numericOrNA t.latitude ∧ numericOrNA t.longitude ∧ numericOrNA t.speed_mph := by
  have h := buildCore_run ((.str "id", .str vid) :: rest) (.dict [])
      (.dict [(.str vid, .dict sd)]) (.dict []) now
      (.dict sd) (.dict []) .null
      (PyVal.str "N/A", PyVal.str "N/A", PyVal.str "N/A", PyVal.str "N/A", PyVal.str "N/A")
      ((if (lookupPyD sd (.str "obdEngineSeconds") .null).isNumeric
          then PyVal.float (pyRound2 ((lookupPyD sd (.str "obdEngineSeconds") .null).toRat / 3600))
          else PyVal.str "N/A"),
        (if (lookupPyD sd (.str "engineOilPressureKPa") .null).isNumeric
          then pyRoundVal2 (lookupPyD sd (.str "engineOilPressureKPa") .null)
          else PyVal.str "N/A"),
        (if (lookupPyD sd (.str "engineCoolantTemperatureMilliC") .null).isNumeric
          then PyVal.float
            (pyRound2 ((lookupPyD sd (.str "engineCoolantTemperatureMilliC") .null).toRat / 1000))
          else PyVal.str "N/A"),
        (if (lookupPyD sd (.str "ambientAirTemperatureMilliC") .null).isNumeric
          then PyVal.float
            (pyRound2 ((lookupPyD sd (.str "ambientAirTemperatureMilliC") .null).toRat / 1000))
          else PyVal.str "N/A"),
        (if (lookupPyD sd (.str "engineRpm") .null).isNumeric
          then lookupPyD sd (.str "engineRpm") .null else PyVal.str "N/A"))
      (PyVal.bool false, PyVal.bool false, PyVal.bool false, PyVal.bool false, PyVal.list [])
      []
      (by simp [condGet, lookupPyD]) (by simp [condGet, lookupPyD])
      (by simp [condGet, lookupPyD]) rfl rfl rfl rfl
  refine ⟨_, congrArg (Option.map Prod.fst) h, rfl, rfl, rfl, rfl, rfl, ?_, ?_, ?_, ?_, ?_,
    Or.inr rfl, Or.inr rfl, Or.inr rfl⟩
  · cases hn : (lookupPyD sd (.str "obdEngineSeconds") .null).isNumeric <;>
      simp [numericOrNA, mkTwin, hn]
  · cases hn : (lookupPyD sd (.str "engineOilPressureKPa") .null).isNumeric with
    | false => simp [numericOrNA, mkTwin, hn]
    | true => exact Or.inl (by simp [mkTwin, hn, pyRoundVal2_numeric _ hn])
  · cases hn : (lookupPyD sd (.str "engineCoolantTemperatureMilliC") .null).isNumeric <;>
      simp [numericOrNA, mkTwin, hn]
  · cases hn : (lookupPyD sd (.str "ambientAirTemperatureMilliC") .null).isNumeric <;>
      simp [numericOrNA, mkTwin, hn]
  · cases hn : (lookupPyD sd (.str "engineRpm") .null).isNumeric <;>
      simp [numericOrNA, mkTwin, hn]

theorem lookupPyD_id_head (vid : String) (rest : List (PyVal × PyVal)) :
    lookupPyD ((PyVal.str "id", PyVal.str vid) :: rest) (.str "id") (.str "")
      = PyVal.str vid := by
  simp [lookupPyD]

/-- C6: if the locations map has no entry for the vehicle id, the four
position fields (and the location timestamp) are all "N/A"; no other
field depends on the locations map at all; and when the stats and
maintenance maps also lack the id the build succeeds with every dependent
field at its sentinel/default. -/
theorem C6_missing_entry_fallback (rest dl : List (PyVal × PyVal)) (vid : String)
    (S M : PyVal) (now : String)
    (hL : lookupPy dl (.str vid) = Option.none) :
    (∀ t alerts, buildCore (.dict ((.str "id", .str vid) :: rest)) (.dict dl) S M now
        = Option.some (t, alerts) →
      t.latitude = PyVal.str "N/A" ∧ t.longitude = PyVal.str "N/A"
        ∧ t.speed_mph = PyVal.str "N/A" ∧ t.current_address = PyVal.str "N/A"
        ∧ t.location_updated_at = PyVal.str "N/A")
    ∧ (∀ (L1 L2 : PyVal) t1 t2 al1 al2,
        buildCore (.dict ((.str "id", .str vid) :: rest)) L1 S M now = Option.some (t1, al1) →
        buildCore (.dict ((.str "id", .str vid) :: rest)) L2 S M now = Option.some (t2, al2) →
        nonLocProj t1 = nonLocProj t2 ∧ al1 = al2)
    ∧ (∀ (ds dm : List (PyVal × PyVal)),
        lookupPy ds (.str vid) = Option.none →
        lookupPy dm (.str vid) = Option.none →
        ∃ t, buildCore (.dict ((.str "id", .str vid) :: rest)) (.dict dl) (.dict ds)
            (.dict dm) now = Option.some (t, [])
          ∧ t.latitude = PyVal.str "N/A" ∧ t.longitude = PyVal.str "N/A"
          ∧ t.speed_mph = PyVal.str "N/A" ∧ t.current_address = PyVal.str "N/A"
          ∧ t.location_updated_at = PyVal.str "N/A"
          ∧ t.engine_hours = PyVal.str "N/A" ∧ t.engine_oil_pressure_kpa = PyVal.str "N/A"
          ∧ t.engine_coolant_temperature_c = PyVal.str "N/A"
          ∧ t.ambient_air_temperature_c = PyVal.str "N/A" ∧ t.engine_rpm = PyVal.str "N/A"
          ∧ t.engine_check_light_warning = PyVal.bool false
          ∧ t.engine_check_light_emissions = PyVal.bool false
          ∧ t.engine_check_light_protect = PyVal.bool false
          ∧ t.engine_check_light_stop = PyVal.bool false
          ∧ t.diagnostic_trouble_codes = PyVal.list []
          ∧ t.status_alert = PyVal.str "OPERANDO NORMALMENTE"
          ∧ t.alert_color = PyVal.str "green") := by
  refine ⟨?_, ?_, ?_⟩
  · intro t alerts h
    simp only [buildCore, lookupPyD_id_head, asDict_dict, Option.some.injEq,
      Option.bind_eq_some, Prod.mk.injEq] at h
    obtain ⟨dd, hdd, sdv, hsd, mdv, hmd, ldv, hld, lf, hlf, sf, hsf, mf, hmf, al, hal,
      hpair⟩ := h
    subst hdd
    rw [lookupPyD_id_head] at hsd hmd hld
    rw [condGet_dict dl (.str vid) .null (.dict []) (hashable_str vid)] at hld
    simp only [lookupPyD, hL, Option.some.injEq] at hld
    subst hld
    rw [show buildLocFields PyVal.null = Option.some (PyVal.str "N/A", PyVal.str "N/A",
      PyVal.str "N/A", PyVal.str "N/A", PyVal.str "N/A") from rfl,
      Option.some.injEq] at hlf
    subst hlf
    rw [← hpair.1]
    exact ⟨rfl, rfl, rfl, rfl, rfl⟩
  · intro L1 L2 t1 t2 al1 al2 h1 h2
    simp only [buildCore, lookupPyD_id_head, asDict_dict, Option.some.injEq,
      Option.bind_eq_some, Prod.mk.injEq] at h1 h2
    obtain ⟨dd1, hdd1, sdv1, hsd1, mdv1, hmd1, ldv1, hld1, lf1, hlf1, sf1, hsf1, mf1, hmf1,
      al1x, hal1, hpair1⟩ := h1
    obtain ⟨dd2, hdd2, sdv2, hsd2, mdv2, hmd2, ldv2, hld2, lf2, hlf2, sf2, hsf2, mf2, hmf2,
      al2x, hal2, hpair2⟩ := h2
    subst hdd1; subst hdd2
    rw [lookupPyD_id_head] at hsd1 hsd2 hmd1 hmd2
    rw [hsd1] at hsd2
    rw [hmd1] at hmd2
    obtain rfl : sdv1 = sdv2 := Option.some.inj hsd2
    obtain rfl : mdv1 = mdv2 := Option.some.inj hmd2
    rw [hsf1] at hsf2
    rw [hmf1] at hmf2
    obtain rfl : sf1 = sf2 := Option.some.inj hsf2
    obtain rfl : mf1 = mf2 := Option.some.inj hmf2
    rw [hal1] at hal2
    obtain rfl : al1x = al2x := Option.some.inj hal2
    rw [← hpair1.1, ← hpair2.1, ← hpair1.2, ← hpair2.2]
    exact ⟨rfl, rfl⟩
  · intro ds dm hS hM
    have h := buildCore_run ((.str "id", .str vid) :: rest) (.dict dl) (.dict ds)
        (.dict dm) now
        (.dict []) (.dict []) .null
        (PyVal.str "N/A", PyVal.str "N/A", PyVal.str "N/A", PyVal.str "N/A", PyVal.str "N/A")
        (PyVal.str "N/A", PyVal.str "N/A", PyVal.str "N/A", PyVal.str "N/A", PyVal.str "N/A")
        (PyVal.bool false, PyVal.bool false, PyVal.bool false, PyVal.bool false, PyVal.list [])
        []
        (by rw [lookupPyD_id_head]; simp [condGet, lookupPyD, hS])
        (by rw [lookupPyD_id_head]; simp [condGet, lookupPyD, hM])
        (by rw [lookupPyD_id_head]; simp [condGet, lookupPyD, hL])
        rfl rfl rfl rfl
    exact ⟨_, h, rfl, rfl, rfl, rfl, rfl, rfl, rfl, rfl, rfl, rfl, rfl, rfl, rfl, rfl, rfl,
      by simp [mkTwin, statusAndColor], by simp [mkTwin, statusAndColor]⟩

theorem C6_missing_entry_fallback_witness :
    lookupPy ([] : List (PyVal × PyVal)) (.str "V1") = Option.none
    ∧ ((∀ t alerts, buildCore (.dict [(.str "id", .str "V1")]) (.dict []) (.dict [])
          (.dict []) "T" = Option.some (t, alerts) →
        t.latitude = PyVal.str "N/A" ∧ t.longitude = PyVal.str "N/A"
          ∧ t.speed_mph = PyVal.str "N/A" ∧ t.current_address = PyVal.str "N/A"
          ∧ t.location_updated_at = PyVal.str "N/A")
      ∧ (∀ (L1 L2 : PyVal) t1 t2 al1 al2,
          buildCore (.dict [(.str "id", .str "V1")]) L1 (.dict []) (.dict []) "T"
            = Option.some (t1, al1) →
          buildCore (.dict [(.str "id", .str "V1")]) L2 (.dict []) (.dict []) "T"
            = Option.some (t2, al2) →
          nonLocProj t1 = nonLocProj t2 ∧ al1 = al2)
      ∧ (∀ (ds dm : List (PyVal × PyVal)),
          lookupPy ds (.str "V1") = Option.none →
          lookupPy dm (.str "V1") = Option.none →
          ∃ t, buildCore (.dict [(.str "id", .str "V1")]) (.dict []) (.dict ds)
              (.dict dm) "T" = Option.some (t, [])
            ∧ t.latitude = PyVal.str "N/A" ∧ t.longitude = PyVal.str "N/A"
            ∧ t.speed_mph = PyVal.str "N/A" ∧ t.current_address = PyVal.str "N/A"
            ∧ t.location_updated_at = PyVal.str "N/A"
            ∧ t.engine_hours = PyVal.str "N/A" ∧ t.engine_oil_pressure_kpa = PyVal.str "N/A"
            ∧ t.engine_coolant_temperature_c = PyVal.str "N/A"
            ∧ t.ambient_air_temperature_c = PyVal.str "N/A" ∧ t.engine_rpm = PyVal.str "N/A"
            ∧ t.engine_check_light_warning = PyVal.bool false
            ∧ t.engine_check_light_emissions = PyVal.bool false
            ∧ t.engine_check_light_protect = PyVal.bool false
            ∧ t.engine_check_light_stop = PyVal.bool false
            ∧ t.diagnostic_trouble_codes = PyVal.list []
            ∧ t.status_alert = PyVal.str "OPERANDO NORMALMENTE"
            ∧ t.alert_color = PyVal.str "green")) :=
  ⟨rfl, C6_missing_entry_fallback [] [] "V1" (.dict []) (.dict []) "T" rfl⟩

@[simp] theorem listIfEmpty (a : List PyVal) :
    (if a.isEmpty then ([] : List PyVal) else a) = a := by
  cases a <;> simp

theorem findMaintById_append_skip (xs ys : List PyVal) (t : PyVal)
    (hxs : ∀ x ∈ xs, ∃ d, x = PyVal.dict d
      ∧ (pyStr (lookupPyD d (.str "id") .null) == pyStr t) = false) :
    findMaintById (xs ++ ys) t = findMaintById ys t := by
  induction xs with
  | nil => rfl
  | cons x xs ih =>
    obtain ⟨d, hx, hne⟩ := hxs x (by simp)
    subst hx
    simp only [List.cons_append, findMaintById, hne, Bool.false_eq_true, if_false]
    exact ih (fun y hy => hxs y (List.mem_cons_of_mem _ hy))

/-- C7: the maintenance fetch follows the endCursor through every page,
accumulating all items in order, and stops at an empty/absent cursor:
3 pages of N items yield exactly 3N items, an id present only on page 2
is found, and a transport failure on any page makes the whole call
return the absent result. -/
theorem C7_maintenance_pagination (N : Nat) (a1 a2rest a3 : List PyVal)
    (d2 : List (PyVal × PyVal)) (tgt c1 c2 cE : PyVal)
    (hc1 : c1.truthy = true) (hc2 : c2.truthy = true) (hcE : cE.truthy = false)
    (h1 : a1.length = N) (h2 : (PyVal.dict d2 :: a2rest).length = N) (h3 : a3.length = N)
    (hskip : ∀ x ∈ a1, ∃ d, x = PyVal.dict d
        ∧ (pyStr (lookupPyD d (.str "id") .null) == pyStr tgt) = false)
    (hmatch : (pyStr (lookupPyD d2 (.str "id") .null) == pyStr tgt) = true) :
    paginateMaint [.ok a1 [] c1, .ok (PyVal.dict d2 :: a2rest) [] c2, .ok a3 [] cE] []
        = Option.some (a1 ++ (PyVal.dict d2 :: a2rest) ++ a3)
    ∧ (a1 ++ (PyVal.dict d2 :: a2rest) ++ a3).length = 3 * N
    ∧ get_vehicle_maintenance_data tgt
        [.ok a1 [] c1, .ok (PyVal.dict d2 :: a2rest) [] c2, .ok a3 [] cE]
        = Option.some (Option.some (PyVal.dict d2))
    ∧ (∀ more, get_vehicle_maintenance_data tgt (.err :: more) = Option.some Option.none)
    ∧ (∀ more, get_vehicle_maintenance_data tgt (.ok a1 [] c1 :: .err :: more)
        = Option.some Option.none)
    ∧ get_vehicle_maintenance_data tgt
        [.ok a1 [] c1, .ok (PyVal.dict d2 :: a2rest) [] c2, .err]
        = Option.some Option.none := by
  have hpag : paginateMaint [.ok a1 [] c1, .ok (PyVal.dict d2 :: a2rest) [] c2, .ok a3 [] cE] []
      = Option.some (a1 ++ (PyVal.dict d2 :: a2rest) ++ a3) := by
    simp [paginateMaint, hc1, hc2, hcE]
  refine ⟨hpag, ?_, ?_, fun more => rfl, ?_, ?_⟩
  · simp only [List.length_append, List.length_cons] at h2 ⊢
    omega
  · have hm : get_vehicle_maintenance_data tgt
        [.ok a1 [] c1, .ok (PyVal.dict d2 :: a2rest) [] c2, .ok a3 [] cE]
        = findMaintById ((a1 ++ (PyVal.dict d2 :: a2rest)) ++ a3) tgt := by
      unfold get_vehicle_maintenance_data
      rw [hpag]
    rw [hm, List.append_assoc, findMaintById_append_skip a1 _ tgt hskip]
    simp [findMaintById, hmatch]
  · intro more
    simp [get_vehicle_maintenance_data, paginateMaint, hc1]
  · simp [get_vehicle_maintenance_data, paginateMaint, hc1, hc2]

theorem C7_maintenance_pagination_witness :
    (PyVal.str "c1").truthy = true ∧ (PyVal.str "").truthy = false
    ∧ (paginateMaint
          [.ok [PyVal.dict [(.str "id", .str "A")]] [] (.str "c1"),
           .ok (PyVal.dict [(.str "id", .str "B")] :: []) [] (.str "c2"),
           .ok [PyVal.dict [(.str "id", .str "C")]] [] (.str "")] []
          = Option.some ([PyVal.dict [(.str "id", .str "A")]]
              ++ (PyVal.dict [(.str "id", .str "B")] :: [])
              ++ [PyVal.dict [(.str "id", .str "C")]])
        ∧ ([PyVal.dict [(.str "id", .str "A")]]
              ++ (PyVal.dict [(.str "id", .str "B")] :: [])
              ++ [PyVal.dict [(.str "id", .str "C")]]).length = 3 * 1
        ∧ get_vehicle_maintenance_data (.str "B")
            [.ok [PyVal.dict [(.str "id", .str "A")]] [] (.str "c1"),
             .ok (PyVal.dict [(.str "id", .str "B")] :: []) [] (.str "c2"),
             .ok [PyVal.dict [(.str "id", .str "C")]] [] (.str "")]
            = Option.some (Option.some (PyVal.dict [(.str "id", .str "B")]))
        ∧ (∀ more, get_vehicle_maintenance_data (.str "B") (.err :: more)
            = Option.some Option.none)
        ∧ (∀ more, get_vehicle_maintenance_data (.str "B")
            (.ok [PyVal.dict [(.str "id", .str "A")]] [] (.str "c1") :: .err :: more)
            = Option.some Option.none)
        ∧ get_vehicle_maintenance_data (.str "B")
            [.ok [PyVal.dict [(.str "id", .str "A")]] [] (.str "c1"),
             .ok (PyVal.dict [(.str "id", .str "B")] :: []) [] (.str "c2"), .err]
            = Option.some Option.none) :=
  ⟨rfl, rfl,
    C7_maintenance_pagination 1 [PyVal.dict [(.str "id", .str "A")]] []
      [PyVal.dict [(.str "id", .str "C")]] [(.str "id", .str "B")]
      (.str "B") (.str "c1") (.str "c2") (.str "")
      rfl rfl rfl rfl rfl rfl
      (by
        intro x hx
        simp only [List.mem_singleton] at hx
        subst hx
        exact ⟨[(.str "id", .str "A")], rfl, by decide⟩)
      (by decide)⟩

theorem extractStats_no_keys (sts : List String) (itm : List (PyVal × PyVal))
    (h : ∀ st ∈ sts, lookupPy itm (.str st) = Option.none) :
    extractStats sts itm = PyVal.dict [] := by
  have hfold : ∀ (sts2 : List String),
      (∀ st ∈ sts2, lookupPy itm (.str st) = Option.none) →
      sts2.foldl (fun acc st =>
        match lookupPy itm (.str st) with
        | Option.some v => acc ++ [(PyVal.str st, unwrapStat v)]
        | Option.none => acc) ([] : List (PyVal × PyVal)) = [] := by
    intro sts2
    induction sts2 with
    | nil => intro _; rfl
    | cons s ss ih =>
      intro h2
      simp only [List.foldl_cons, h2 s (by simp)]
      exact ih (fun st hst => h2 st (List.mem_cons_of_mem _ hst))
  unfold extractStats
  rw [hfold sts h]

/-- C8: a stat-type batch of 0 or more than 4 items is rejected before any
network call (the result is `None` whatever the network would answer),
while a batch of 1 to 4 items proceeds to the request and its result
depends on the response. -/
theorem C8_batch_precondition (vid : String) (stat_types : List String) :
    (stat_types.length = 0 ∨ stat_types.length > 4 →
      ∀ net, get_all_vehicle_stats_and_filter (.str vid) stat_types net = Option.none)
    ∧ (1 ≤ stat_types.length → stat_types.length ≤ 4 → "id" ∉ stat_types →
        get_all_vehicle_stats_and_filter (.str vid) stat_types .err = Option.none
        ∧ get_all_vehicle_stats_and_filter (.str vid) stat_types
            (.ok [[(.str "id", .str vid)]]) = Option.some (PyVal.dict [])) := by
  constructor
  · intro h net
    have hcond : (stat_types.isEmpty || decide (stat_types.length > 4)) = true := by
      rcases h with h | h
      · cases stat_types with
        | nil => simp
        | cons a as => simp at h
      · simp [h]
    unfold get_all_vehicle_stats_and_filter
    rw [if_pos hcond]
  · intro h1 h4 hnid
    have hcond : (stat_types.isEmpty || decide (stat_types.length > 4)) = false := by
      cases stat_types with
      | nil => simp at h1
      | cons a as =>
        simp only [List.length_cons] at h4
        simp only [List.isEmpty_cons, Bool.false_or, decide_eq_false_iff_not,
          List.length_cons]
        omega
    have hex : extractStats stat_types [(PyVal.str "id", PyVal.str vid)] = PyVal.dict [] := by
      apply extractStats_no_keys
      intro st hst
      have hne : ("id" == st) = false := by
        cases hbe : ("id" == st) with
        | false => rfl
        | true => exact absurd (by rw [beq_iff_eq] at hbe; rw [hbe]; exact hst) hnid
      simp [lookupPy, hne]
    constructor
    · unfold get_all_vehicle_stats_and_filter
      rw [if_neg (by simp [hcond])]
    · unfold get_all_vehicle_stats_and_filter
      rw [if_neg (by simp [hcond])]
      simp [List.find?, lookupPyD, hex]

theorem C8_batch_precondition_witness :
    ((["s1", "s2", "s3", "s4", "s5"] : List String).length = 0
      ∨ (["s1", "s2", "s3", "s4", "s5"] : List String).length > 4)
    ∧ (∀ net, get_all_vehicle_stats_and_filter (.str "V1") ["s1", "s2", "s3", "s4", "s5"] net
        = Option.none)
    ∧ (1 ≤ (["s1"] : List String).length ∧ (["s1"] : List String).length ≤ 4
        ∧ "id" ∉ (["s1"] : List String))
    ∧ (get_all_vehicle_stats_and_filter (.str "V1") ["s1"] .err = Option.none
        ∧ get_all_vehicle_stats_and_filter (.str "V1") ["s1"]
            (.ok [[(.str "id", .str "V1")]]) = Option.some (PyVal.dict [])) :=
  ⟨Or.inr (by decide),
    (C8_batch_precondition "V1" ["s1", "s2", "s3", "s4", "s5"]).1 (Or.inr (by decide)),
    ⟨by decide, by decide, by decide⟩,
    (C8_batch_precondition "V1" ["s1"]).2 (by decide) (by decide) (by decide)⟩

/-- C9: a present time string is parsed as ISO-8601 after replacing the
literal Z with +00:00, and location_updated_at is the reformatted
"YYYY-MM-DD HH:MM:SS" on success and the original string unchanged on
parse failure; the build never fails on an unparseable string. -/
theorem C9_location_time_format (rest : List (PyVal × PyVal)) (vid tstr now : String) :
    ∃ t, process_vehicle_data (.dict ((.str "id", .str vid) :: rest))
        (.dict [(.str vid, .dict [(.str "time", .str tstr)])]) (.dict []) (.dict []) now
        = Option.some t
      ∧ t.location_updated_at =
          (match pyFromIso (zToUtc tstr) with
            | Option.some dt => PyVal.str (strftimeYmdHMS dt)
            | Option.none => PyVal.str tstr)
      ∧ pyFromIso (zToUtc "2024-05-06T12:30:45Z")
          = Option.some ⟨2024, 5, 6, 12, 30, 45, 0, Option.some 0⟩
      ∧ strftimeYmdHMS ⟨2024, 5, 6, 12, 30, 45, 0, Option.some 0⟩ = "2024-05-06 12:30:45"
      ∧ pyFromIso (zToUtc "not-a-timestamp") = Option.none := by
  have hlf : buildLocFields (.dict [(.str "time", .str tstr)])
      = Option.some (PyVal.str "N/A", PyVal.str "N/A", PyVal.str "N/A", PyVal.str "N/A",
        (match pyFromIso (zToUtc tstr) with
          | Option.some dt => PyVal.str (strftimeYmdHMS dt)
          | Option.none => PyVal.str tstr)) := by
    by_cases ht : tstr = "N/A"
    · subst ht
      have hna : pyFromIso (zToUtc "N/A") = Option.none := rfl
      simp [buildLocFields, locTimeField, lookupPyD, hna]
    · simp only [buildLocFields, locTimeField, lookupPyD]
      simp [ht]
      cases pyFromIso (zToUtc tstr) <;> simp
  have h := buildCore_run ((.str "id", .str vid) :: rest)
      (.dict [(.str vid, .dict [(.str "time", .str tstr)])]) (.dict []) (.dict []) now
      (.dict []) (.dict [])
      (.dict [(.str "time", .str tstr)])
      (PyVal.str "N/A", PyVal.str "N/A", PyVal.str "N/A", PyVal.str "N/A",
        (match pyFromIso (zToUtc tstr) with
          | Option.some dt => PyVal.str (strftimeYmdHMS dt)
          | Option.none => PyVal.str tstr))
      (PyVal.str "N/A", PyVal.str "N/A", PyVal.str "N/A", PyVal.str "N/A", PyVal.str "N/A")
      (PyVal.bool false, PyVal.bool false, PyVal.bool false, PyVal.bool false, PyVal.list [])
      []
      (by simp [condGet, lookupPyD]) (by simp [condGet, lookupPyD])
      (by simp [condGet, lookupPyD]) hlf rfl rfl rfl
  exact ⟨_, congrArg (Option.map Prod.fst) h, rfl, rfl, rfl, rfl⟩

/-- C10: the `isinstance(value, (int, float))` numeric check accepts
Python booleans, so a boolean stat or speed is treated as the number 1/0
rather than as missing: obdEngineSeconds = True gives
engine_hours = round(1/3600, 2) = 0.0 instead of "N/A", and likewise for
speed_mph and every engine stat field. -/
theorem C10_bool_counts_as_numeric (rest : List (PyVal × PyVal)) (vid now : String)
    (b : Bool) :
    PyVal.isNumeric (.bool b) = true
    ∧ ∃ t, process_vehicle_data (.dict ((.str "id", .str vid) :: rest))
        (.dict [(.str vid, .dict [(.str "speed", .bool b)])])
        (.dict [(.str vid, .dict [
          (.str "obdEngineSeconds", .bool true),
          (.str "engineOilPressureKPa", .bool b),
          (.str "engineCoolantTemperatureMilliC", .bool b),
          (.str "ambientAirTemperatureMilliC", .bool b),
          (.str "engineRpm", .bool b)])]) (.dict []) now = Option.some t
      ∧ t.engine_hours = PyVal.float (pyRound2 ((1 : ℚ) / 3600))
      ∧ pyRound2 ((1 : ℚ) / 3600) = 0
      ∧ t.engine_hours ≠ PyVal.str "N/A"
      ∧ t.engine_oil_pressure_kpa = PyVal.int (if b then 1 else 0)
      ∧ t.engine_coolant_temperature_c
          = PyVal.float (pyRound2 (PyVal.toRat (.bool b) / 1000))
      ∧ t.ambient_air_temperature_c
          = PyVal.float (pyRound2 (PyVal.toRat (.bool b) / 1000))
      ∧ t.engine_rpm = PyVal.bool b
      ∧ t.speed_mph = PyVal.int (if b then 1 else 0)
      ∧ t.speed_mph ≠ PyVal.str "N/A"
      ∧ t.engine_rpm ≠ PyVal.str "N/A"
      ∧ t.engine_oil_pressure_kpa ≠ PyVal.str "N/A"
      ∧ t.engine_coolant_temperature_c ≠ PyVal.str "N/A"
      ∧ t.ambient_air_temperature_c ≠ PyVal.str "N/A" := by
  have hround : pyRound2 ((1 : ℚ) / 3600) = 0 := by
    have hf : Int.fdiv 1 36 = 0 := by decide
    norm_num [pyRound2, roundHalfEven, ratFloor, hf]
  have hlf : buildLocFields (.dict [(.str "speed", .bool b)])
      = Option.some (PyVal.str "N/A", PyVal.str "N/A", PyVal.int (if b then 1 else 0),
        PyVal.str "N/A", PyVal.str "N/A") := by
    simp [buildLocFields, locTimeField, lookupPyD, pyRoundVal2]
  have h := buildCore_run ((.str "id", .str vid) :: rest)
      (.dict [(.str vid, .dict [(.str "speed", .bool b)])])
      (.dict [(.str vid, .dict [
        (.str "obdEngineSeconds", .bool true),
        (.str "engineOilPressureKPa", .bool b),
        (.str "engineCoolantTemperatureMilliC", .bool b),
        (.str "ambientAirTemperatureMilliC", .bool b),
        (.str "engineRpm", .bool b)])]) (.dict []) now
      (.dict [
        (.str "obdEngineSeconds", .bool true),
        (.str "engineOilPressureKPa", .bool b),
        (.str "engineCoolantTemperatureMilliC", .bool b),
        (.str "ambientAirTemperatureMilliC", .bool b),
        (.str "engineRpm", .bool b)])
      (.dict []) (.dict [(.str "speed", .bool b)])
      (PyVal.str "N/A", PyVal.str "N/A", PyVal.int (if b then 1 else 0),
        PyVal.str "N/A", PyVal.str "N/A")
      (PyVal.float (pyRound2 ((1 : ℚ) / 3600)), PyVal.int (if b then 1 else 0),
        PyVal.float (pyRound2 (PyVal.toRat (.bool b) / 1000)),
        PyVal.float (pyRound2 (PyVal.toRat (.bool b) / 1000)), PyVal.bool b)
      (PyVal.bool false, PyVal.bool false, PyVal.bool false, PyVal.bool false, PyVal.list [])
      []
      (by simp [condGet, lookupPyD]) (by simp [condGet, lookupPyD])
      (by simp [condGet, lookupPyD]) hlf
      (by simp [buildStatFields, lookupPyD, pyRoundVal2, PyVal.toRat])
      rfl rfl
  exact ⟨rfl, _, congrArg (Option.map Prod.fst) h, rfl, hround, by simp [mkTwin], rfl, rfl,
    rfl, rfl, rfl, by simp [mkTwin], by simp [mkTwin], by simp [mkTwin], by simp [mkTwin],
    by simp [mkTwin]⟩

end Gemelos
